import Mathlib

/-!
Shallow embedding of the Vision Assist voice-assistant pages: the scan page
(src/app/scan/page.tsx) and the chat page together with its
speech-recognition hook (src/unnamed/part_000).

Modelling conventions:
* React useState state is collected in explicit state records (ScanState,
  ChatState); every setX(v) call becomes a functional update of the record.
* Side effects that leave the page controller (speech synthesis, toasts,
  navigation, vibration, canvas drawing, image encoding, network requests,
  retry timers, track shutdown) are recorded in an append-only trace field.
* Requests are not executed: the external server is an oracle of type
  Nat -> Except String String giving the outcome of the k-th POST of a
  request chain (ok carries the analysis/response field of the JSON body,
  error carries the failure message).
* A React function component re-creates its local closures on every render,
  and a callback scheduled with setTimeout keeps the closures of the render
  that created it.  The retry code reads retryCount through such a closure,
  so every invocation of processImage / handleUserMessage in one retry chain
  observes the render-time snapshot of retryCount, passed here as the
  explicit argument named snapshot, while setRetryCount writes the live
  retryCount field of the state record.  The setTimeout re-invocation is
  modelled by fuel-indexed recursion (processImageAux, handleUserMessageAux);
  the Boolean component of the result is true when the chain settled
  (success or fallback) and false when the fuel ran out while the chain was
  still scheduling retries.
* Math.floor(Math.random() * MOCK_RESPONSES.length) is modelled by an oracle
  argument of type Fin 5.
* JavaScript string truthiness (undefined and the empty string are falsy) is
  modelled by jsTruthyString on Option String.
-/

namespace VisionAssist

/-- Observable side effects emitted by the page controllers. -/
inductive Event where
  | speak (text : String)
  | toast (title : String) (description : String) (destructive : Bool)
  | navigate (path : String)
  | vibrate
  | resetTranscript
  | drawFrame
  | encodeImage
  | request (endpoint : String)
  | scheduleRetry (delayMs : Nat)
  | stopTracks
deriving DecidableEq, Repr

/-- Role of a chat message, from the Message interface of the chat page. -/
inductive Role where
  | user
  | assistant
deriving DecidableEq, Repr

/-- Chat message: role plus content, from the Message interface. -/
structure Message where
  role : Role
  content : String
deriving DecidableEq, Repr

/-- State of the scan page controller: the useState cells of ScanPage, the
video element stream handle (srcObject, as an abstract handle) and the
emitted side-effect trace. -/
structure ScanState where
  isListening : Bool
  isSpeaking : Bool
  recognitionActive : Bool
  isProcessing : Bool
  cameraActive : Bool
  analysisResult : String
  userQuestion : String
  retryCount : Nat
  stream : Option Nat
  trace : List Event
deriving DecidableEq, Repr

/-- Append one side effect to the scan-page trace. -/
def ScanState.emit (st : ScanState) (e : Event) : ScanState :=
  { st with trace := st.trace ++ [e] }

/-- State of the chat page controller (GPTPage). -/
structure ChatState where
  isListening : Bool
  isSpeaking : Bool
  recognitionActive : Bool
  isProcessing : Bool
  messages : List Message
  retryCount : Nat
  trace : List Event
deriving DecidableEq, Repr

/-- Append one side effect to the chat-page trace. -/
def ChatState.emit (st : ChatState) (e : Event) : ChatState :=
  { st with trace := st.trace ++ [e] }

/-- Scan page mount state: every flag false, empty result and trace. -/
def initScanState : ScanState :=
  { isListening := false, isSpeaking := false, recognitionActive := false,
    isProcessing := false, cameraActive := false, analysisResult := "",
    userQuestion := "", retryCount := 0, stream := none, trace := [] }

/-- Chat page mount state: the initial assistant greeting is in the log. -/
def initChatState : ChatState :=
  { isListening := false, isSpeaking := false, recognitionActive := false,
    isProcessing := false,
    messages := [{ role := Role.assistant, content := "Hello! How can I help you today?" }],
    retryCount := 0, trace := [] }

/-- The maxRetries constant of both pages. -/
def maxRetries : Nat := 3

/-- The MOCK_RESPONSES array of the scan page. -/
def MOCK_RESPONSES : List String :=
  [ "I can see what appears to be an indoor space. There are no obvious obstacles in the immediate vicinity.",
    "This looks like an outdoor area. The path ahead seems clear, but proceed with caution.",
    "I can see what might be furniture or objects in the frame. Please be careful when moving forward.",
    "The image shows what appears to be a room with some furniture. There are no immediate hazards visible.",
    "I can see what looks like a pathway. It appears to be clear of obstacles." ]

/-- Indexing MOCK_RESPONSES with an in-range index. -/
def mockAt (i : Fin 5) : String :=
  MOCK_RESPONSES.get (Fin.cast (by rfl) i)

/-- The fixed disclaimer text appended by getMockResponse when a question was
asked, with the question inserted verbatim. -/
def offlineDisclaimer (q : String) : String :=
  " Regarding your question: \"" ++ q ++ "\", I\x27m currently unable to provide a specific answer as I\x27m operating in offline mode."

/-- JavaScript truthiness of an optional string: undefined and the empty
string are falsy. -/
def jsTruthyString : Option String → Bool
  | none => false
  | some s => !s.isEmpty

/-- getMockResponse of the scan page.  randomIndex models the sampled value
Math.floor(Math.random() * MOCK_RESPONSES.length). -/
def getMockResponse (randomIndex : Fin 5) (question : Option String) : String :=
  let response := mockAt randomIndex
  match question with
  | some q => if q.isEmpty then response else response ++ offlineDisclaimer q
  | none => response

/-- JavaScript String.prototype.includes, used for command matching. -/
def jsIncludes (s pat : String) : Bool :=
  decide (pat.toList <:+: s.toList)

/-- JavaScript String.prototype.toLowerCase, mapped over the characters. -/
def jsToLower (s : String) : String :=
  String.mk (s.data.map Char.toLower)

/-- JavaScript String.prototype.split at the comma separator: every comma
starts a new piece, empty pieces are kept. -/
def splitAtComma : List Char → List (List Char)
  | [] => [[]]
  | c :: rest =>
      let r := splitAtComma rest
      if c = ',' then [] :: r
      else
        match r with
        | [] => [[c]]
        | h :: t => (c :: h) :: t

/-- imageBase64.split(",")[1] of processImage: the element at index 1 of the
comma split, or none when the split has a single piece. -/
def base64Part (s : String) : Option String :=
  ((splitAtComma s.data).map String.mk).get? 1

/-- Action requested by the transcript effect of the scan page: nothing
further, a camera start or stop, or a captureImage call carrying its optional
question argument. -/
inductive ScanAction where
  | nothing
  | startCamera
  | stopCamera
  | capture (question : Option String)
deriving DecidableEq, Repr

/-- The transcript-dispatch useEffect body of the scan page (lines 52-107):
first-match substring command interpretation over the lower-cased transcript,
returning the updated state and the camera action it requests. -/
def onScanTranscript (transcript : String) (st : ScanState) : ScanState × ScanAction :=
  if transcript.isEmpty || !st.isListening then (st, ScanAction.nothing)
  else
    let command := jsToLower transcript
    if jsIncludes command "go back" || jsIncludes command "go home" then
      ((st.emit (Event.speak "Going back to home page")).emit (Event.navigate "/"), ScanAction.nothing)
    else if jsIncludes command "go to gpt" || jsIncludes command "go to assistant" then
      ((st.emit (Event.speak "Opening voice assistant")).emit (Event.navigate "/gpt"), ScanAction.nothing)
    else if jsIncludes command "start camera" || jsIncludes command "open camera" then
      (st.emit (Event.speak "Starting camera"), ScanAction.startCamera)
    else if jsIncludes command "stop camera" || jsIncludes command "close camera" then
      (st.emit (Event.speak "Stopping camera"), ScanAction.stopCamera)
    else if jsIncludes command "take picture" || jsIncludes command "snap photo" || jsIncludes command "analyze" then
      (st.emit (Event.speak "Taking picture for analysis"), ScanAction.capture none)
    else if jsIncludes command "emergency" then
      ((st.emit (Event.speak "Activating emergency contact")).emit
        (Event.toast "Emergency Contact" "Contacting your emergency contact..." true), ScanAction.nothing)
    else if st.cameraActive then
      ({ st with userQuestion := transcript }, ScanAction.capture (some transcript))
    else
      ((st.emit (Event.speak "You can say \"take picture\", \"start camera\", \"stop camera\", or \"go home\"")).emit
        Event.resetTranscript, ScanAction.nothing)

/-- captureImage of the scan page.  videoRefAttached, canvasRefAttached and
contextAvailable model the nullability of videoRef.current, canvasRef.current
and canvas.getContext; frame models the data URL that compressImage would
produce from the current video frame.  The second component is the argument
pair handed to processImage, or none when captureImage returned early. -/
def captureImage (videoRefAttached canvasRefAttached contextAvailable : Bool)
    (frame : String) (question : Option String) (st : ScanState) :
    ScanState × Option (String × Option String) :=
  if !videoRefAttached || !canvasRefAttached || !st.cameraActive then
    let st1 := st.emit (Event.speak "Camera is not active. Please start the camera first.")
    let st2 := st1.emit (Event.toast "Camera not active" "Please start the camera first" true)
    (st2, none)
  else if !contextAvailable then (st, none)
  else
    let st1 := st.emit Event.drawFrame
    let st2 := st1.emit Event.encodeImage
    let questionText := if jsTruthyString question then question else none
    let st3 := { st2 with retryCount := 0 }
    (st3, some (frame, questionText))

/-- stopCamera of the scan page: early return when the video element has no
attached stream, otherwise stop all tracks, detach, clear the active flag and
show the stop notification. -/
def stopCamera (videoRefAttached : Bool) (st : ScanState) : ScanState :=
  if !videoRefAttached then st
  else
    match st.stream with
    | none => st
    | some _ =>
        let st1 := st.emit Event.stopTracks
        let st2 := { st1 with stream := none, cameraActive := false }
        st2.emit (Event.toast "Camera stopped" "Camera has been turned off" false)

/-- toggleListening of the scan page. -/
def scanToggleListening (st : ScanState) : ScanState :=
  if st.isSpeaking then { st with isSpeaking := false }
  else if st.isListening then
    let st1 := { st with recognitionActive := false, isListening := false }
    st1.emit (Event.toast "Voice recognition stopped" "Click the microphone again to start listening" false)
  else
    let st1 := { st with recognitionActive := true, isListening := true }
    let st2 := st1.emit (Event.speak (if st.cameraActive then
      "Listening. Ask a question about what you see or say \"take picture\"" else
      "Listening. You can say \"start camera\", \"take picture\", or \"go home\""))
    let st3 := st2.emit (Event.toast "Listening..." "Say a command or ask a question" false)
    st3.emit Event.vibrate

/-- toggleListening of the chat page. -/
def chatToggleListening (st : ChatState) : ChatState :=
  if st.isSpeaking then { st with isSpeaking := false }
  else if st.isListening then
    let st1 := { st with recognitionActive := false, isListening := false }
    st1.emit (Event.toast "Voice recognition stopped" "Click the microphone again to start listening" false)
  else
    let st1 := { st with recognitionActive := true, isListening := true }
    let st2 := st1.emit (Event.speak "Listening. What would you like to know?")
    let st3 := st2.emit (Event.toast "Listening..." "Speak your question now" false)
    st3.emit Event.vibrate

/-- Result of one invocation of a retrying request function: normal success,
a scheduled resubmission, or the after-max-retries fallback path. -/
inductive Outcome where
  | success
  | retryScheduled
  | fallback
deriving DecidableEq, Repr

/-- The finally block of processImage: clears the processing flag, the
pending question and the retry counter only when the retryCount observed by
this invocation has reached maxRetries. -/
def applyFinally (snapshot : Nat) (st : ScanState) : ScanState :=
  if maxRetries ≤ snapshot then
    { st with isProcessing := false, userQuestion := "", retryCount := 0 }
  else st

/-- The catch block of processImage: while the observed retryCount is below
maxRetries, bump the counter, notify and schedule a resubmission; afterwards
store a mock response and notify about offline mode. -/
def scanCatch (randomIndex : Fin 5) (voiceFeedback : Bool) (snapshot : Nat)
    (question : Option String) (st : ScanState) : ScanState × Outcome :=
  if snapshot < maxRetries then
    let st1 := { st with retryCount := snapshot + 1 }
    let st2 := st1.emit (Event.toast
      ("Retry " ++ toString (snapshot + 1) ++ "/" ++ toString maxRetries)
      "Retrying image analysis..." false)
    let st3 := st2.emit (Event.scheduleRetry 1000)
    (st3, Outcome.retryScheduled)
  else
    let mockResponse := getMockResponse randomIndex question
    let st1 := st.emit (Event.toast "Using offline mode" "Could not connect to AI service. Using basic analysis." false)
    let st2 := { st1 with analysisResult := mockResponse }
    let st3 := if voiceFeedback then st2.emit (Event.speak mockResponse) else st2
    (st3, Outcome.fallback)

/-- One invocation of processImage.  resp is the outcome of the POST this
invocation would issue (consulted only when the base64 payload is present);
snapshot is the render-time retryCount captured by this closure. -/
def processImageOnce (resp : Except String String) (randomIndex : Fin 5)
    (voiceFeedback : Bool) (snapshot : Nat) (img : String)
    (question : Option String) (st : ScanState) : ScanState × Outcome :=
  let st0 := { st with isProcessing := true }
  if jsTruthyString (base64Part img) then
    let st1 := st0.emit (Event.request "/api/analyze-image")
    match resp with
    | Except.ok analysis =>
        let st2 := { st1 with analysisResult := analysis }
        let st3 := if voiceFeedback then st2.emit (Event.speak analysis) else st2
        let st4 := st3.emit (Event.toast "Analysis complete" "Image has been analyzed" false)
        (applyFinally snapshot st4, Outcome.success)
    | Except.error _ =>
        let p := scanCatch randomIndex voiceFeedback snapshot question st1
        (applyFinally snapshot p.1, p.2)
  else
    let p := scanCatch randomIndex voiceFeedback snapshot question st0
    (applyFinally snapshot p.1, p.2)

/-- The retry chain of processImage: each scheduled resubmission re-enters
the same closure (same snapshot).  The Boolean is true when the chain settled
within the given fuel. -/
def processImageAux (server : Nat → Except String String) (randomIndex : Fin 5)
    (voiceFeedback : Bool) (snapshot : Nat) (img : String)
    (question : Option String) : Nat → Nat → ScanState → ScanState × Bool
  | 0, _, st => (st, false)
  | fuel + 1, k, st =>
      match processImageOnce (server k) randomIndex voiceFeedback snapshot img question st with
      | (st1, Outcome.retryScheduled) =>
          processImageAux server randomIndex voiceFeedback snapshot img question fuel (k + 1) st1
      | (st1, _) => (st1, true)

/-- The canned apology appended by the chat page after retries are exhausted. -/
def apologyText : String :=
  "I\x27m sorry, I encountered an error processing your request. Please try again."

/-- The finally block of handleUserMessage. -/
def chatFinally (snapshot : Nat) (st : ChatState) : ChatState :=
  if maxRetries ≤ snapshot then
    { st with isProcessing := false, retryCount := 0 }
  else st

/-- One invocation of handleUserMessage: append the user message, stop
listening, mark processing, reset the live retry counter, issue the POST and
handle its outcome; snapshot is the render-time retryCount captured by this
closure. -/
def handleUserMessageOnce (resp : Except String String) (voiceFeedback : Bool)
    (snapshot : Nat) (message : String) (st : ChatState) : ChatState × Outcome :=
  let st0 := { st with messages := st.messages ++ [Message.mk Role.user message] }
  let st1 := { st0 with recognitionActive := false, isListening := false }
  let st2 := { st1 with isProcessing := true }
  let st3 := { st2 with retryCount := 0 }
  let st4 := st3.emit (Event.request "/api/chat")
  match resp with
  | Except.ok aiResponse =>
      let st5 := { st4 with messages := st4.messages ++ [Message.mk Role.assistant aiResponse] }
      let st6 := if voiceFeedback then st5.emit (Event.speak aiResponse) else st5
      let st7 := st6.emit (Event.toast "Response received" "The AI has responded to your question" false)
      (chatFinally snapshot st7, Outcome.success)
  | Except.error _ =>
      if snapshot < maxRetries then
        let st5 := { st4 with retryCount := snapshot + 1 }
        let st6 := st5.emit (Event.toast
          ("Retry " ++ toString (snapshot + 1) ++ "/" ++ toString maxRetries)
          "Retrying to get a response..." false)
        let st7 := st6.emit (Event.scheduleRetry 1000)
        (chatFinally snapshot st7, Outcome.retryScheduled)
      else
        let st5 := st4.emit (Event.toast "Error" "Failed to get a response. Please try again." true)
        let st6 := { st5 with messages := st5.messages ++ [Message.mk Role.assistant apologyText] }
        (chatFinally snapshot st6, Outcome.fallback)

/-- The retry chain of handleUserMessage: each scheduled resubmission
re-runs the whole function through the same closure (same snapshot). -/
def handleUserMessageAux (server : Nat → Except String String) (voiceFeedback : Bool)
    (snapshot : Nat) (message : String) : Nat → Nat → ChatState → ChatState × Bool
  | 0, _, st => (st, false)
  | fuel + 1, k, st =>
      match handleUserMessageOnce (server k) voiceFeedback snapshot message st with
      | (st1, Outcome.retryScheduled) =>
          handleUserMessageAux server voiceFeedback snapshot message fuel (k + 1) st1
      | (st1, _) => (st1, true)

/-- Titles of the toast notifications of a trace, in order. -/
def toastTitles (tr : List Event) : List String :=
  tr.filterMap fun e =>
    match e with
    | Event.toast t _ _ => some t
    | _ => none

/-- Whether an event is an outgoing network request. -/
def Event.isRequest : Event → Bool
  | Event.request _ => true
  | _ => false

/-- Whether an event draws a video frame to the canvas. -/
def Event.isDraw : Event → Bool
  | Event.drawFrame => true
  | _ => false

/-- Whether an event encodes the canvas to an image. -/
def Event.isEncode : Event → Bool
  | Event.encodeImage => true
  | _ => false

/-- Number of outgoing network requests recorded in a trace. -/
def requestCount (tr : List Event) : Nat :=
  (tr.filter Event.isRequest).length

/-- A server that fails every POST, for the repeated-failure scenarios. -/
def alwaysFailServer : Nat → Except String String :=
  fun _ => Except.error "Internal server error"

/-- Scan state with the microphone on and the camera active, the context of
the voice-command scenarios. -/
def listeningCameraState : ScanState :=
  { initScanState with isListening := true, cameraActive := true }

/-- Image-analysis retry chain on 5 units of fuel when every POST fails,
started from a fresh capture (render-time retryCount snapshot 0). -/
def c1Run : ScanState × Bool :=
  processImageAux alwaysFailServer 0 true 0 "d,a" none 5 0 initScanState

/-- One processImage invocation on a payload with no base64 data after the
comma split, with a healthy server. -/
def c2Run : ScanState × Outcome :=
  processImageOnce (Except.ok "a fine analysis") 0 true 0 "data:image/jpeg;base64," none initScanState

/-- Transcript dispatch of "take a picture please" with the camera active. -/
def c3Run : ScanState × ScanAction :=
  onScanTranscript "take a picture please" listeningCameraState

/-- Transcript dispatch of "take picture please" with the camera active. -/
def c3RunKeyword : ScanState × ScanAction :=
  onScanTranscript "take picture please" listeningCameraState

/-- Chat retry chain on 5 units of fuel when every POST fails, started from
a fresh user message (render-time retryCount snapshot 0). -/
def c4Run : ChatState × Bool :=
  handleUserMessageAux alwaysFailServer true 0 "hello" 5 0 initChatState

/-- A malformed invocation of processImage (payload with no base64 part, here
below maxRetries) resolves to the retry branch of the catch block without
issuing a network request. -/
theorem processImageOnce_malformed (resp : Except String String) (i : Fin 5)
    (vf : Bool) (snapshot : Nat) (img : String) (q : Option String) (st : ScanState)
    (h1 : jsTruthyString (base64Part img) = false) (h2 : snapshot < maxRetries) :
    processImageOnce resp i vf snapshot img q st
      = ({ st with
            isProcessing := true,
            retryCount := snapshot + 1,
            trace := st.trace ++
              [Event.toast ("Retry " ++ toString (snapshot + 1) ++ "/" ++ toString maxRetries)
                "Retrying image analysis..." false,
               Event.scheduleRetry 1000] }, Outcome.retryScheduled) := by
  have h3 : ¬ maxRetries ≤ snapshot := Nat.not_le.mpr h2
  simp [processImageOnce, scanCatch, applyFinally, ScanState.emit, h1, h2, h3]

/-- On a malformed payload the whole retry chain never settles and never
issues a network request, for any amount of fuel. -/
theorem processImageAux_malformed (server : Nat → Except String String) (i : Fin 5)
    (vf : Bool) (snapshot : Nat) (img : String) (q : Option String)
    (h1 : jsTruthyString (base64Part img) = false) (h2 : snapshot < maxRetries) :
    ∀ fuel k st, (processImageAux server i vf snapshot img q fuel k st).2 = false
      ∧ requestCount (processImageAux server i vf snapshot img q fuel k st).1.trace
          = requestCount st.trace := by
  intro fuel
  induction fuel with
  | zero => intro k st; exact ⟨rfl, rfl⟩
  | succ n ih =>
      intro k st
      simp only [processImageAux,
        processImageOnce_malformed (server k) i vf snapshot img q st h1 h2]
      refine ⟨(ih (k + 1) _).1, ?_⟩
      rw [(ih (k + 1) _).2]
      simp [requestCount, Event.isRequest]

/-- The processing flag after one processImage invocation, as a function of
the observed retryCount snapshot. -/
theorem processImageOnce_isProcessing (resp : Except String String) (i : Fin 5)
    (vf : Bool) (snapshot : Nat) (img : String) (q : Option String) (st : ScanState) :
    (processImageOnce resp i vf snapshot img q st).1.isProcessing
      = decide (snapshot < maxRetries) := by
  rcases resp with e | a <;>
    simp only [processImageOnce, scanCatch, applyFinally, ScanState.emit] <;>
    split_ifs <;> simp_all <;> omega

/-- The processing flag after one handleUserMessage invocation, as a function
of the observed retryCount snapshot. -/
theorem handleUserMessageOnce_isProcessing (resp : Except String String)
    (vf : Bool) (snapshot : Nat) (msg : String) (st : ChatState) :
    (handleUserMessageOnce resp vf snapshot msg st).1.isProcessing
      = decide (snapshot < maxRetries) := by
  rcases resp with e | a
  · simp only [handleUserMessageOnce, chatFinally, ChatState.emit]
    split_ifs <;> simp_all
    omega
  · simp only [handleUserMessageOnce, chatFinally, ChatState.emit]
    split_ifs <;> simp_all

/-- C1: the claim states that when every POST to /api/analyze-image fails on
4 consecutive attempts, processImage performs exactly 3 retries with
user-visible counts 1, 2 and 3 and then stops and stores a mock analysis
result.  The code disagrees: the scheduled resubmission re-enters the closure
that captured the render-time retryCount (0 for a fresh capture), so the
retry test never advances.  On 5 units of fuel the chain issues 5 requests,
notifies the fixed count 1 five times, never shows counts 2 or 3, never takes
the offline-mock fallback, stores no result and leaves the processing flag
set. -/
theorem c1_retry_never_terminates :
    c1Run.2 = false
    ∧ requestCount c1Run.1.trace = 5
    ∧ (toastTitles c1Run.1.trace).count "Retry 1/3" = 5
    ∧ (toastTitles c1Run.1.trace).count "Retry 2/3" = 0
    ∧ (toastTitles c1Run.1.trace).count "Retry 3/3" = 0
    ∧ "Using offline mode" ∉ toastTitles c1Run.1.trace
    ∧ c1Run.1.analysisResult = ""
    ∧ c1Run.1.isProcessing = true := by decide

/-- C2 counterexample: on a payload whose comma split has no base64 data, the
invocation issues no network request, yet it does enter the retry path (a
retry notification and a scheduled resubmission), contradicting the claim
that malformed local input is surfaced as an immediate error without entering
the retry path. -/
theorem c2_counterexample :
    requestCount c2Run.1.trace = 0
    ∧ c2Run.2 = Outcome.retryScheduled
    ∧ "Retry 1/3" ∈ toastTitles c2Run.1.trace := by decide

/-- C2 amended: for every processImage invocation whose payload has no base64
data after the comma split, the thrown error precedes the fetch, so no
network request is ever issued; but the error lands in the shared catch
block: with the observed retryCount snapshot below maxRetries the invocation
enters the retry path (retry notification, scheduled resubmission) instead of
surfacing an immediate error, and the whole chain keeps retrying without ever
issuing a request or settling. -/
theorem c2_amended (resp : Except String String) (server : Nat → Except String String)
    (i : Fin 5) (vf : Bool) (snapshot : Nat) (img : String) (q : Option String)
    (st : ScanState)
    (h1 : jsTruthyString (base64Part img) = false) (h2 : snapshot < maxRetries) :
    processImageOnce resp i vf snapshot img q st
      = ({ st with
            isProcessing := true,
            retryCount := snapshot + 1,
            trace := st.trace ++
              [Event.toast ("Retry " ++ toString (snapshot + 1) ++ "/" ++ toString maxRetries)
                "Retrying image analysis..." false,
               Event.scheduleRetry 1000] }, Outcome.retryScheduled)
    ∧ ∀ fuel k, (processImageAux server i vf snapshot img q fuel k st).2 = false
      ∧ requestCount (processImageAux server i vf snapshot img q fuel k st).1.trace
          = requestCount st.trace :=
  ⟨processImageOnce_malformed resp i vf snapshot img q st h1 h2,
   fun fuel k => processImageAux_malformed server i vf snapshot img q h1 h2 fuel k st⟩

/-- C2 witness: the amended statement at a concrete malformed payload. -/
theorem c2_amended_witness :
    (processImageOnce (Except.ok "a fine analysis") 0 true 0 "x" none initScanState
      = ({ initScanState with
            isProcessing := true,
            retryCount := 0 + 1,
            trace := initScanState.trace ++
              [Event.toast ("Retry " ++ toString (0 + 1) ++ "/" ++ toString maxRetries)
                "Retrying image analysis..." false,
               Event.scheduleRetry 1000] }, Outcome.retryScheduled))
    ∧ (processImageAux alwaysFailServer 0 true 0 "x" none 2 0 initScanState).2 = false
    ∧ requestCount (processImageAux alwaysFailServer 0 true 0 "x" none 2 0 initScanState).1.trace
        = requestCount initScanState.trace :=
  ⟨(c2_amended (Except.ok "a fine analysis") alwaysFailServer 0 true 0 "x" none
      initScanState (by decide) (by decide)).1,
   (c2_amended (Except.ok "a fine analysis") alwaysFailServer 0 true 0 "x" none
      initScanState (by decide) (by decide)).2 2 0⟩

/-- C3 counterexample: with the camera active, the transcript "take a picture
please" is not routed to the plain capture-and-analyze intent: no capture
keyword matches (the substring "take picture" does not occur), so the
dispatcher takes the free-form-question path, calling captureImage with the
transcript as the question and never speaking the capture confirmation. -/
theorem c3_counterexample :
    c3Run.2 = ScanAction.capture (some "take a picture please")
    ∧ c3Run.2 ≠ ScanAction.capture none
    ∧ Event.speak "Taking picture for analysis" ∉ c3Run.1.trace := by decide

/-- C3 amended: "take a picture please" contains none of the capture keywords,
so with the camera active it is treated as a free-form question for the
current frame (captureImage receives the transcript as question and the
question is stored); a transcript that does contain the keyword, such as
"take picture please", maps to the plain capture-and-analyze intent with the
spoken confirmation and a captureImage call with no question argument. -/
theorem c3_amended :
    c3Run.2 = ScanAction.capture (some "take a picture please")
    ∧ c3Run.1.userQuestion = "take a picture please"
    ∧ c3RunKeyword.2 = ScanAction.capture none
    ∧ c3RunKeyword.1.trace = listeningCameraState.trace ++ [Event.speak "Taking picture for analysis"] := by decide

/-- C4: the claim states that when every POST to /api/chat fails on 4
consecutive attempts, after the 3 retries exactly one canned apology message
is appended to the log.  The code disagrees: the scheduled resubmission
re-runs handleUserMessage through the closure that captured the render-time
retryCount (0 for a fresh message), so the retry test never advances and the
apology branch is unreachable.  On 5 units of fuel the chain notifies the
fixed retry count 1 five times, never shows counts 2 or 3, appends no apology
and no error notification (it does re-append the user message on every
attempt), and leaves the processing flag set.  No synthetic answer is
fabricated, as the claim says. -/
theorem c4_no_apology_infinite_retry :
    c4Run.2 = false
    ∧ c4Run.1.messages.countP (fun m => m.content == apologyText) = 0
    ∧ "Error" ∉ toastTitles c4Run.1.trace
    ∧ (toastTitles c4Run.1.trace).count "Retry 1/3" = 5
    ∧ (toastTitles c4Run.1.trace).count "Retry 2/3" = 0
    ∧ (toastTitles c4Run.1.trace).count "Retry 3/3" = 0
    ∧ c4Run.1.messages.countP (fun m => m.content == "hello") = 5
    ∧ c4Run.1.isProcessing = true := by decide

/-- C5: for every one of the five canned fallback sentences (any sampled
index) and every non-empty question, getMockResponse returns that sentence
followed by the fixed disclaimer, and the disclaimer carries the question
text verbatim (it is of the shape prefix ++ question ++ suffix). -/
theorem c5_mock_disclaimer (i : Fin 5) (q : String) (h : q ≠ "") :
    getMockResponse i (some q) = mockAt i ++ offlineDisclaimer q
    ∧ ∃ pre suf : String, offlineDisclaimer q = pre ++ q ++ suf := by
  have hq : q.isEmpty = false := by
    rcases hh : q.isEmpty
    · rfl
    · exact absurd ((String.isEmpty_iff q).mp hh) h
  constructor
  · simp [getMockResponse, hq]
  · exact ⟨" Regarding your question: \"",
      "\", I\x27m currently unable to provide a specific answer as I\x27m operating in offline mode.",
      rfl⟩

/-- C5 witness: the disclaimer behaviour at a concrete question. -/
theorem c5_mock_disclaimer_witness :
    getMockResponse 0 (some "what is this") = mockAt 0 ++ offlineDisclaimer "what is this"
    ∧ ∃ pre suf : String, offlineDisclaimer "what is this" = pre ++ "what is this" ++ suf :=
  c5_mock_disclaimer 0 "what is this" (by decide)

/-- C6: calling captureImage while the camera is inactive only speaks and
shows the camera-not-active error and returns: no frame is drawn, nothing is
encoded, no argument pair is handed to processImage, and the retry counter is
untouched, whatever the ref and context availability. -/
theorem c6_capture_inactive (v c ctx : Bool) (frame : String) (q : Option String)
    (st : ScanState) (h : st.cameraActive = false) :
    captureImage v c ctx frame q st
      = ({ st with trace := st.trace ++
            [Event.speak "Camera is not active. Please start the camera first.",
             Event.toast "Camera not active" "Please start the camera first" true] }, none)
    ∧ (captureImage v c ctx frame q st).1.retryCount = st.retryCount
    ∧ (captureImage v c ctx frame q st).1.trace.countP Event.isDraw
        = st.trace.countP Event.isDraw
    ∧ (captureImage v c ctx frame q st).1.trace.countP Event.isEncode
        = st.trace.countP Event.isEncode := by
  have h1 : captureImage v c ctx frame q st
      = ({ st with trace := st.trace ++
            [Event.speak "Camera is not active. Please start the camera first.",
             Event.toast "Camera not active" "Please start the camera first" true] }, none) := by
    simp [captureImage, h, ScanState.emit]
  refine ⟨h1, ?_, ?_, ?_⟩ <;> rw [h1] <;>
    simp [Event.isDraw, Event.isEncode, List.countP_append]

/-- C6 witness: the inactive-camera early return at the mount state. -/
theorem c6_capture_inactive_witness :
    (captureImage true true true "frame" none initScanState
      = ({ initScanState with trace := initScanState.trace ++
            [Event.speak "Camera is not active. Please start the camera first.",
             Event.toast "Camera not active" "Please start the camera first" true] }, none))
    ∧ (captureImage true true true "frame" none initScanState).1.retryCount
        = initScanState.retryCount
    ∧ (captureImage true true true "frame" none initScanState).1.trace.countP Event.isDraw
        = initScanState.trace.countP Event.isDraw
    ∧ (captureImage true true true "frame" none initScanState).1.trace.countP Event.isEncode
        = initScanState.trace.countP Event.isEncode :=
  c6_capture_inactive true true true "frame" none initScanState rfl

/-- C7: when a processImage or handleUserMessage invocation settles, the
processing flag ends up false exactly when the retryCount observed by that
invocation has reached maxRetries; in particular an invocation that settles
while the observed counter is below the maximum leaves the flag true. -/
theorem c7_processing_cleared_iff (resp resp2 : Except String String) (i : Fin 5)
    (vf vf2 : Bool) (snapshot : Nat) (img : String) (q : Option String)
    (st : ScanState) (msg : String) (st2 : ChatState) :
    ((processImageOnce resp i vf snapshot img q st).1.isProcessing = false
        ↔ maxRetries ≤ snapshot)
    ∧ ((handleUserMessageOnce resp2 vf2 snapshot msg st2).1.isProcessing = false
        ↔ maxRetries ≤ snapshot) := by
  constructor
  · rw [processImageOnce_isProcessing]
    simp [Nat.not_lt]
  · rw [handleUserMessageOnce_isProcessing]
    simp [Nat.not_lt]

/-- C8: stopCamera with no attached stream is a no-op (the state, hence also
the notification trace, is unchanged), and a second consecutive stopCamera
never has an additional effect. -/
theorem c8_stop_camera_idempotent (v : Bool) (st : ScanState) :
    (st.stream = none → stopCamera v st = st)
    ∧ stopCamera v (stopCamera v st) = stopCamera v st := by
  constructor
  · intro h
    rcases v
    · rfl
    · simp [stopCamera, h]
  · rcases v
    · rfl
    · rcases hs : st.stream with _ | s
      · simp [stopCamera, hs]
      · simp [stopCamera, hs, ScanState.emit]

/-- C8 witness: the no-op and idempotence at the mount state. -/
theorem c8_stop_camera_idempotent_witness :
    (initScanState.stream = none → stopCamera true initScanState = initScanState)
    ∧ stopCamera true (stopCamera true initScanState) = stopCamera true initScanState :=
  c8_stop_camera_idempotent true initScanState

/-- C9: with no question supplied, getMockResponse returns the sampled canned
sentence verbatim, a member of the fixed five-element list, with nothing
appended. -/
theorem c9_mock_no_question (i : Fin 5) :
    getMockResponse i none = mockAt i ∧ getMockResponse i none ∈ MOCK_RESPONSES := by
  refine ⟨rfl, ?_⟩
  show mockAt i ∈ MOCK_RESPONSES
  exact List.get_mem _ _ _

/-- C10: on either page, pressing the microphone toggle while speech
synthesis is speaking only clears the speaking flag: listening flag,
recognition session, message log, camera state and the whole notification
trace are untouched. -/
theorem c10_toggle_while_speaking (st : ScanState) (st2 : ChatState)
    (h : st.isSpeaking = true) (h2 : st2.isSpeaking = true) :
    scanToggleListening st = { st with isSpeaking := false }
    ∧ chatToggleListening st2 = { st2 with isSpeaking := false } := by
  constructor
  · simp [scanToggleListening, h]
  · simp [chatToggleListening, h2]

/-- C10 witness: the toggle at concrete speaking states of both pages. -/
theorem c10_toggle_while_speaking_witness :
    scanToggleListening { initScanState with isSpeaking := true }
      = { { initScanState with isSpeaking := true } with isSpeaking := false }
    ∧ chatToggleListening { initChatState with isSpeaking := true }
      = { { initChatState with isSpeaking := true } with isSpeaking := false } :=
  c10_toggle_while_speaking { initScanState with isSpeaking := true }
    { initChatState with isSpeaking := true } rfl rfl

end VisionAssist
